import Mathlib

/-!
Shallow embedding of the sense-hat monitoring program
(`src/data_gatherer/gatherer.py`, `src/target_temp/target_temp.py`,
`src/manager/manager.py`, `src/main.py`) and proofs of the specification
claims about it.

Numeric conventions: Python integers are embedded as `ℤ`; Python float
arithmetic on the sensor values is embedded as exact rational arithmetic
on `ℚ` (every formula verified here consists of `+ - * /` on values for
which the spec reasons with exact arithmetic).  Fallible Python code
(code that raises an exception) is embedded as an `Except`-valued
function whose error constructors name the failure condition.
-/

namespace SenseHat

/-- Errors raised by the `Gatherer` metric computations.
`insufficientHistory` stands for the `TypeError` Python raises in
`get_delta_cpu_times` when `previous_cpu_times` is still `None`
(`len(None)`); `divisionUndefined` stands for the `ZeroDivisionError`
Python raises on a zero divisor. -/
inductive GatherError where
  | insufficientHistory
  | divisionUndefined
  deriving DecidableEq, Repr

/-- One `/proc/stat` CPU-time snapshot: the four integer counters
`cpu_stat_file.readline().split(" ")[2:6]` read by
`Gatherer.update_cpu_stat_times` (user, nice, system, idle). -/
structure CpuTimes where
  user : ℤ
  nice : ℤ
  system : ℤ
  idle : ℤ
  deriving DecidableEq, Repr

/-- The CPU-time history kept on the `Gatherer` instance:
`self.previous_cpu_times` and `self.current_cpu_times`, both initialised
to `None` in `__init__`. -/
structure CpuState where
  previousCpuTimes : Option CpuTimes
  currentCpuTimes : Option CpuTimes
  deriving DecidableEq, Repr

/-- `Gatherer.update_cpu_stat_times`: move `current_cpu_times` into
`previous_cpu_times` and store a freshly read snapshot as
`current_cpu_times`. -/
def updateCpuStatTimes (st : CpuState) (fresh : CpuTimes) : CpuState :=
  { previousCpuTimes := st.currentCpuTimes, currentCpuTimes := some fresh }

/-- Componentwise difference `current[i] - previous[i]` computed by the
loop in `Gatherer.get_delta_cpu_times`. -/
def deltaCpuTimes (previous current : CpuTimes) : CpuTimes :=
  { user := current.user - previous.user
    nice := current.nice - previous.nice
    system := current.system - previous.system
    idle := current.idle - previous.idle }

/-- `sum(delta_cpu_stats)` over the four counters. -/
def sumCpuTimes (t : CpuTimes) : ℤ :=
  t.user + t.nice + t.system + t.idle

/-- `Gatherer.get_delta_cpu_times`: fails when `previous_cpu_times` is
`None` (Python raises `TypeError` on `len(None)`; the snapshot history is
insufficient), otherwise returns the componentwise delta.  When
`previous_cpu_times` is set, `current_cpu_times` has been set by the same
`update_cpu_stat_times` call that populated it, so the remaining `none`
case cannot arise in the program; it is mapped to the same error. -/
def getDeltaCpuTimes (st : CpuState) : Except GatherError CpuTimes :=
  match st.previousCpuTimes, st.currentCpuTimes with
  | some previous, some current => .ok (deltaCpuTimes previous current)
  | _, _ => .error .insufficientHistory

/-- `Gatherer.get_cpu_usage`:
`cpu_usage_in_percent = 100 - (delta[-1] * 100.0 / sum(delta))`,
`cpu_usage_in_cpu_core = cpu_usage_in_percent / 100 * 4`.
The division raises `ZeroDivisionError` when `sum(delta) == 0`. -/
def getCpuUsage (st : CpuState) : Except GatherError ℚ := do
  let d ← getDeltaCpuTimes st
  if sumCpuTimes d = 0 then
    .error .divisionUndefined
  else
    .ok ((100 - (d.idle : ℚ) * 100 / (sumCpuTimes d : ℚ)) / 100 * 4)

end SenseHat

namespace SenseHat

/-- C1: the snapshot pair of the spec example, previous=[100,0,50,850]. -/
def examplePreviousCpuTimes : CpuTimes := ⟨100, 0, 50, 850⟩

/-- C1: the snapshot pair of the spec example, current=[110,0,60,880]. -/
def exampleCurrentCpuTimes : CpuTimes := ⟨110, 0, 60, 880⟩

/-- `Gatherer.calculate_cpu_divisor_for_target_temp`:
`average_sense_hat_temp = (sense_hat_temp + sense_hat_temp_from_humidity
+ sense_hat_temp_from_pressure) / 3` and the result is
`cpu_temp / -(current_target_temperature - average_sense_hat_temp)`.
The division raises `ZeroDivisionError` when the denominator is zero. -/
def calculateCpuDivisorForTargetTemp (senseHatTemp senseHatTempFromHumidity
    senseHatTempFromPressure cpuTemp currentTargetTemperature : ℚ) :
    Except GatherError ℚ :=
  let averageSenseHatTemp :=
    (senseHatTemp + senseHatTempFromHumidity + senseHatTempFromPressure) / 3
  if -(currentTargetTemperature - averageSenseHatTemp) = 0 then
    .error .divisionUndefined
  else
    .ok (cpuTemp / -(currentTargetTemperature - averageSenseHatTemp))

/-- The fallible numeric core of `Gatherer.update_all_data_for_logging`:
it computes `calculate_cpu_divisor_for_target_temp()` and then
`get_cpu_usage()` with no exception handler, so an error raised by either
propagates out of the tick (there is no handler anywhere up the call
chain: in the logging thread the exception terminates the loop, and on
the UI's CPU-usage screen path it terminates the process). -/
def gatherDerivedMetrics (st : CpuState) (senseHatTemp senseHatTempFromHumidity
    senseHatTempFromPressure cpuTemp currentTargetTemperature : ℚ) :
    Except GatherError (ℚ × ℚ) := do
  let divisor ← calculateCpuDivisorForTargetTemp senseHatTemp
    senseHatTempFromHumidity senseHatTempFromPressure cpuTemp
    currentTargetTemperature
  let usage ← getCpuUsage st
  pure (divisor, usage)

/-! `src/target_temp/target_temp.py` -/

/-- `TargetTemperature.default_temperature`. -/
def defaultTemperature : ℚ := 24

/-- `TargetTemperature.set_temperature`: stores the new value only if it
is between 0 and 70 inclusive, then returns `self.temperature` (the
stored value after the call; `get_temperature` returns the same stored
value).  The state is the single mutable field `self.temperature`. -/
def setTemperature (temperature newTemperature : ℚ) : ℚ :=
  if 0 ≤ newTemperature ∧ newTemperature ≤ 70 then newTemperature
  else temperature

/-! `src/manager/manager.py` -/

/-- The four joystick arrow directions handled by
`Manager.update_screen_index` (the `middle` push is routed to the
screen-off handler before that method is reached, and at the shutdown
prompt it matches none of the direction branches, like any
non-matching direction). -/
inductive Direction where
  | left
  | right
  | up
  | down
  deriving DecidableEq, Fintype, Repr

/-- `Manager.update_joystick_rotation`: picks the logical-to-physical
direction dictionary from the rounded accelerometer x/y readings.  The
returned function sends a logical direction (the dictionary key) to the
physical direction that triggers it (the dictionary value). -/
def joystickDirection (accelerationX accelerationY : ℤ) :
    Direction → Direction :=
  if accelerationX = -1 then  -- 90 degrees
    fun d => match d with
      | .left => .up
      | .right => .down
      | .up => .right
      | .down => .left
  else if accelerationY = 1 then  -- 0 degrees
    fun d => match d with
      | .left => .left
      | .right => .right
      | .up => .up
      | .down => .down
  else if accelerationY = -1 then  -- 180 degrees
    fun d => match d with
      | .left => .right
      | .right => .left
      | .up => .down
      | .down => .up
  else  -- 270 degrees
    fun d => match d with
      | .left => .down
      | .right => .up
      | .up => .left
      | .down => .right

/-- `Manager.update_screen_rotation`: the rotation (in degrees) passed to
`set_rotation`, decided by the same branch structure as
`update_joystick_rotation`. -/
def screenRotation (accelerationX accelerationY : ℤ) : ℤ :=
  if accelerationX = -1 then 90
  else if accelerationY = 1 then 0
  else if accelerationY = -1 then 180
  else 270

/-- The four state effects of `Manager.update_screen_index`:
`screenPrev` is `screen_index -= 1` (logical left), `screenNext` is
`screen_index += 1` (logical right), `valueDec` is `value_index -= 1`
(logical down), `valueInc` is `value_index += 1` (logical up). -/
inductive NavAction where
  | screenPrev
  | screenNext
  | valueDec
  | valueInc
  deriving DecidableEq, Repr

/-- `Manager.update_screen_index`: the branch taken for a physical event
direction, compared in source order against `joystick_direction['left']`,
`['right']`, `['down']`, `['up']`; `none` when no branch matches. -/
def updateScreenIndexAction (jmap : Direction → Direction)
    (eventDirection : Direction) : Option NavAction :=
  if eventDirection = jmap .left then some .screenPrev
  else if eventDirection = jmap .right then some .screenNext
  else if eventDirection = jmap .down then some .valueDec
  else if eventDirection = jmap .up then some .valueInc
  else none

/-- `Manager.screen_order`. -/
def screenOrder : List String :=
  ["Temperature", "Pressure", "Humidity", "CPU Temperature", "CPU Usage",
   "Shutdown", "Set Target Temperature", "Logging Start/Off"]

/-- `Manager.update_screen`: `current_screen_index = self.screen_index %
len(Manager.screen_order)` and the renderer is selected by comparing
`Manager.screen_order[current_screen_index]` against the (pairwise
distinct) screen names, i.e. the selected renderer is the one named by
that list entry. -/
def renderedScreen (screenIndex : ℤ) : String :=
  screenOrder.getD (screenIndex % (screenOrder.length : ℤ)).toNat ""

/-- Outcome of one entry into `Manager.update_screen_for_shutdown`:
whether `sudo shutdown -h now` was invoked, and the net change applied to
`self.screen_index`. -/
structure ShutdownOutcome where
  shutdownInvoked : Bool
  screenIndexDelta : ℤ
  deriving DecidableEq, Repr

/-- `Manager.update_screen_for_shutdown`: waits for a first joystick
event; if its direction is `joystick_direction['up']` it waits for a
second event and shuts down only if that one is also
`joystick_direction['up']` (nothing else happens to the second event);
otherwise the first event navigates left/right or is ignored.  The
second event argument is only consulted in the confirming branch, since
the code only waits for a second event there. -/
def updateScreenForShutdown (jmap : Direction → Direction)
    (firstEvent secondEvent : Direction) : ShutdownOutcome :=
  if firstEvent = jmap .up then
    if secondEvent = jmap .up then ⟨true, 0⟩ else ⟨false, 0⟩
  else if firstEvent = jmap .left then ⟨false, -1⟩
  else if firstEvent = jmap .right then ⟨false, 1⟩
  else ⟨false, 0⟩

/-! The logging loop of `src/data_gatherer/gatherer.py`, with the log
file modelled as the string of everything written to it (the file is
opened in append mode, so writes concatenate onto the existing
content). -/

/-- `Gatherer.order_of_columns`. -/
def orderOfColumns : List String :=
  ["date", "cpu_divisor_for_target_temp", "target_temperature",
   "cpu_usage", "load_avg_1_min", "load_avg_5_min", "load_avg_15_min",
   "sense_hat_temp", "sense_hat_temp_from_humidity",
   "sense_hat_temp_from_pressure", "cpu_temp", "accelerometer_x",
   "accelerometer_y", "accelerometer_z"]

/-- The column-writing loop of `Gatherer.log_all_data`: write each
column's stringified value, followed by the separator unless the column
is the last element of `order_of_columns` (the column names are pairwise
distinct, so the code's identity test `column is not
order_of_columns[-1]` is true exactly on the non-final iterations). -/
def writeColumns (sep : String) (dataForLogging : String → String) :
    List String → String
  | [] => ""
  | [column] => dataForLogging column
  | column :: rest => dataForLogging column ++ sep ++ writeColumns sep dataForLogging rest

/-- `Gatherer.log_all_data`: append every column value with separators
between them, then a newline. -/
def logAllData (sep : String) (dataForLogging : String → String)
    (file : String) : String :=
  file ++ writeColumns sep dataForLogging orderOfColumns ++ "\n"

/-- `Gatherer.insert_log_column_headers`: append the separator-joined
header line iff `os.path.getsize(log_filename) == 0`, i.e. iff the file
content is currently empty. -/
def insertLogColumnHeaders (sep : String) (file : String) : String :=
  if file.length = 0 then
    file ++ String.intercalate sep orderOfColumns ++ "\n"
  else file

/-- The while-loop of `Gatherer.logging_loop`: one `log_all_data` per
poll tick, where `ticks` lists the per-tick gathered
`data_for_logging` maps (column name to stringified value) until the
control queue stops the loop. -/
def loggingLoop (sep : String) (ticks : List (String → String))
    (file : String) : String :=
  ticks.foldl (fun f dataForLogging => logAllData sep dataForLogging f) file

/-- `Gatherer.start_logging_loop`: open the file (append mode, content
preserved), insert the header if the file is empty, then run the
logging loop. -/
def startLoggingLoop (sep : String) (ticks : List (String → String))
    (file : String) : String :=
  loggingLoop sep ticks (insertLogColumnHeaders sep file)

/-! `src/main.py` -/

/-- The error raised by the config block of `main.py`. -/
inductive MainError where
  | indexError
  deriving DecidableEq, Repr

/-- The `log_filename` config block of `main.py`: `sys.argv[1]` raises
`IndexError` when fewer than two entries are in `argv` (`argv[0]` is the
script name); otherwise the truthiness test picks `sys.argv[1]` when it
is a non-empty string and the default path when it is empty. -/
def logFilename (argv : List String) : Except MainError String :=
  match argv.get? 1 with
  | none => .error .indexError
  | some arg => if arg.length ≠ 0 then .ok arg else .ok "/tmp/sensehat_log"

end SenseHat

/-- C1 (counterexample): with both snapshots non-negative and positive
total delta (sum of deltas = 15 > 0) but a decreasing first counter,
`get_cpu_usage` returns -4/3, which is outside [0, 4]; the claim's
range statement fails under its stated hypothesis. -/
theorem c1_counterexample :
    SenseHat.getCpuUsage
        ⟨some ⟨10, 0, 0, 0⟩, some ⟨5, 0, 0, 20⟩⟩ = .ok (-(4 : ℚ) / 3) ∧
    0 < SenseHat.sumCpuTimes
        (SenseHat.deltaCpuTimes ⟨10, 0, 0, 0⟩ ⟨5, 0, 0, 20⟩) ∧
    ¬ (0 ≤ -(4 : ℚ) / 3) := by
  refine ⟨?_, by decide, by norm_num⟩
  simp only [SenseHat.getCpuUsage, SenseHat.getDeltaCpuTimes,
    SenseHat.deltaCpuTimes, SenseHat.sumCpuTimes, bind, Except.bind]
  norm_num

/-- C1 (amended): for any snapshot pair with positive total delta,
`get_cpu_usage` returns exactly `(100 - d.idle * 100 / sum d) / 100 * 4`;
when additionally every counter delta is non-negative the result lies in
`[0, 4]`; and on the spec's example pair the result is 8/5 = 1.6. -/
theorem c1_cpu_usage_formula (previous current : SenseHat.CpuTimes)
    (hsum : 0 < SenseHat.sumCpuTimes (SenseHat.deltaCpuTimes previous current)) :
    (SenseHat.getCpuUsage ⟨some previous, some current⟩ =
      .ok ((100 -
        ((SenseHat.deltaCpuTimes previous current).idle : ℚ) * 100 /
          (SenseHat.sumCpuTimes (SenseHat.deltaCpuTimes previous current) : ℚ)) /
            100 * 4)) ∧
    ((0 ≤ (SenseHat.deltaCpuTimes previous current).user ∧
      0 ≤ (SenseHat.deltaCpuTimes previous current).nice ∧
      0 ≤ (SenseHat.deltaCpuTimes previous current).system ∧
      0 ≤ (SenseHat.deltaCpuTimes previous current).idle) →
      ∀ q : ℚ,
        SenseHat.getCpuUsage ⟨some previous, some current⟩ = .ok q →
        0 ≤ q ∧ q ≤ 4) ∧
    SenseHat.getCpuUsage
        ⟨some SenseHat.examplePreviousCpuTimes,
         some SenseHat.exampleCurrentCpuTimes⟩ = .ok (8 / 5 : ℚ) := by
  set d := SenseHat.deltaCpuTimes previous current with hd
  have hS : SenseHat.sumCpuTimes d ≠ 0 := by omega
  have hformula :
      SenseHat.getCpuUsage ⟨some previous, some current⟩ =
        .ok ((100 - (d.idle : ℚ) * 100 / (SenseHat.sumCpuTimes d : ℚ)) / 100 * 4) := by
    simp only [SenseHat.getCpuUsage, SenseHat.getDeltaCpuTimes,
      hd, bind, Except.bind, if_neg hS]
  refine ⟨hformula, ?_, ?_⟩
  · rintro ⟨hu, hn, hs, hi⟩ q hq
    rw [hformula] at hq
    have hq' : q = (100 - (d.idle : ℚ) * 100 / (SenseHat.sumCpuTimes d : ℚ)) / 100 * 4 := by
      exact (Except.ok.injEq _ _).mp hq.symm
    have hSQ : (0 : ℚ) < (SenseHat.sumCpuTimes d : ℚ) := by exact_mod_cast hsum
    have hiQ : (0 : ℚ) ≤ (d.idle : ℚ) := by exact_mod_cast hi
    have hle : (d.idle : ℚ) ≤ (SenseHat.sumCpuTimes d : ℚ) := by
      have : d.idle ≤ SenseHat.sumCpuTimes d := by
        simp only [SenseHat.sumCpuTimes]; omega
      exact_mod_cast this
    have hrw : q = 4 * (((SenseHat.sumCpuTimes d : ℚ) - (d.idle : ℚ)) / (SenseHat.sumCpuTimes d : ℚ)) := by
      rw [hq']; field_simp; ring
    constructor
    · rw [hrw]
      have : (0 : ℚ) ≤ ((SenseHat.sumCpuTimes d : ℚ) - (d.idle : ℚ)) / (SenseHat.sumCpuTimes d : ℚ) :=
        div_nonneg (by linarith) (le_of_lt hSQ)
      linarith
    · rw [hrw]
      have hfrac : ((SenseHat.sumCpuTimes d : ℚ) - (d.idle : ℚ)) / (SenseHat.sumCpuTimes d : ℚ) ≤ 1 := by
        rw [div_le_one hSQ]; linarith
      linarith
  · simp only [SenseHat.getCpuUsage, SenseHat.getDeltaCpuTimes,
      SenseHat.deltaCpuTimes, SenseHat.sumCpuTimes, bind, Except.bind,
      SenseHat.examplePreviousCpuTimes, SenseHat.exampleCurrentCpuTimes]
    norm_num

/-- C1 (witness): the amended theorem applied to the spec's example pair,
whose total delta is 50 > 0. -/
theorem c1_cpu_usage_formula_witness :
    SenseHat.getCpuUsage
        ⟨some SenseHat.examplePreviousCpuTimes,
         some SenseHat.exampleCurrentCpuTimes⟩ = .ok (8 / 5 : ℚ) :=
  (c1_cpu_usage_formula SenseHat.examplePreviousCpuTimes
    SenseHat.exampleCurrentCpuTimes (by decide)).2.2

/-- C2: at the failing inputs the divisions are undefined and the code
reports the division error, but nothing recovers from it: the error
propagates out of `update_all_data_for_logging`'s metric computations
(`gatherDerivedMetrics`) instead of being replaced by a sentinel, so the
invoking loop aborts.  Inputs: previous == current == [100,0,50,850]
(zero total delta) and target temperature 20 equal to the average
sense-hat temperature (20+20+20)/3 (zero denominator). -/
theorem c2_division_undefined_propagates :
    SenseHat.getCpuUsage
        ⟨some ⟨100, 0, 50, 850⟩, some ⟨100, 0, 50, 850⟩⟩ =
      .error .divisionUndefined ∧
    SenseHat.calculateCpuDivisorForTargetTemp 20 20 20 50 20 =
      .error .divisionUndefined ∧
    SenseHat.gatherDerivedMetrics
        ⟨some ⟨100, 0, 50, 850⟩, some ⟨100, 0, 50, 850⟩⟩ 20 20 20 50 20 =
      .error .divisionUndefined := by
  refine ⟨?_, ?_, ?_⟩ <;>
    simp only [SenseHat.getCpuUsage, SenseHat.getDeltaCpuTimes,
      SenseHat.deltaCpuTimes, SenseHat.sumCpuTimes,
      SenseHat.calculateCpuDivisorForTargetTemp,
      SenseHat.gatherDerivedMetrics, bind, Except.bind] <;>
    norm_num

/-- C3: starting from the freshly initialised history (both snapshots
`None`), after a single `update_cpu_stat_times` the previous snapshot is
still unset, and `get_cpu_usage` fails with the insufficient-history
error. -/
theorem c3_insufficient_history (fresh : SenseHat.CpuTimes) :
    SenseHat.getCpuUsage
        (SenseHat.updateCpuStatTimes ⟨none, none⟩ fresh) =
      .error .insufficientHistory ∧
    SenseHat.getDeltaCpuTimes
        (SenseHat.updateCpuStatTimes ⟨none, none⟩ fresh) =
      .error .insufficientHistory :=
  ⟨rfl, rfl⟩

/-- Helper: `set_temperature` keeps the stored value in [0, 70] when it
was there before the call. -/
theorem setTemperature_range (s x : ℚ) (h0 : 0 ≤ s) (h70 : s ≤ 70) :
    0 ≤ SenseHat.setTemperature s x ∧ SenseHat.setTemperature s x ≤ 70 := by
  unfold SenseHat.setTemperature
  split
  · next h => exact ⟨h.1, h.2⟩
  · exact ⟨h0, h70⟩

/-- Helper: the [0, 70] invariant is preserved along any sequence of
`set_temperature` calls. -/
theorem setTemperature_foldl_range (updates : List ℚ) (s : ℚ)
    (h0 : 0 ≤ s) (h70 : s ≤ 70) :
    0 ≤ updates.foldl SenseHat.setTemperature s ∧
    updates.foldl SenseHat.setTemperature s ≤ 70 := by
  induction updates generalizing s with
  | nil => exact ⟨h0, h70⟩
  | cons x rest ih =>
      have h := setTemperature_range s x h0 h70
      exact ih _ h.1 h.2

/-- C4: `set_temperature` stores an in-range value and returns it;
out-of-range values leave the stored value unchanged (and the call
returns it); `set(24)` then `set(-5)` from the default 24 leaves 24; and
starting from the default, any sequence of set calls keeps the stored
value within [0, 70]. -/
theorem c4_set_temperature (s x : ℚ) :
    (0 ≤ x → x ≤ 70 → SenseHat.setTemperature s x = x) ∧
    ((x < 0 ∨ 70 < x) → SenseHat.setTemperature s x = s) ∧
    SenseHat.setTemperature
      (SenseHat.setTemperature SenseHat.defaultTemperature 24) (-5) = 24 ∧
    (∀ updates : List ℚ,
      0 ≤ updates.foldl SenseHat.setTemperature SenseHat.defaultTemperature ∧
      updates.foldl SenseHat.setTemperature SenseHat.defaultTemperature ≤ 70) := by
  refine ⟨?_, ?_, ?_, ?_⟩
  · intro h1 h2
    simp [SenseHat.setTemperature, h1, h2]
  · intro h
    unfold SenseHat.setTemperature
    rw [if_neg (by rintro ⟨ha, hb⟩; rcases h with h | h <;> linarith)]
  · norm_num [SenseHat.setTemperature, SenseHat.defaultTemperature]
  · intro updates
    exact setTemperature_foldl_range updates _
      (by norm_num [SenseHat.defaultTemperature])
      (by norm_num [SenseHat.defaultTemperature])

/-- C4 (witness): setting 30 from 10 stores 30; setting -5 from 10 leaves
10. -/
theorem c4_set_temperature_witness :
    SenseHat.setTemperature 10 30 = 30 ∧
    SenseHat.setTemperature 10 (-5) = 10 :=
  ⟨(c4_set_temperature 10 30).1 (by norm_num) (by norm_num),
   (c4_set_temperature 10 (-5)).2.1 (Or.inl (by norm_num))⟩

/-- C5 (counterexample): at rotation 0 degrees, a confirming "up" event
followed by a "left" event triggers no shutdown, but the "left" is NOT
applied to screen navigation (the screen-index change is 0, whereas
`update_screen_index` would treat a physical "left" as `screen_index -=
1`). -/
theorem c5_counterexample :
    (SenseHat.updateScreenForShutdown (SenseHat.joystickDirection 0 1)
      .up .left).shutdownInvoked = false ∧
    (SenseHat.updateScreenForShutdown (SenseHat.joystickDirection 0 1)
      .up .left).screenIndexDelta = 0 ∧
    SenseHat.updateScreenIndexAction (SenseHat.joystickDirection 0 1)
      .left = some .screenPrev ∧
    (0 : ℤ) ≠ -1 := by
  refine ⟨by decide, by decide, by decide, by decide⟩

/-- C5 (amended): the shutdown command is invoked exactly when both
consecutive events are the confirming ("up") direction; after a single
confirming event any other second event leaves the screen index
unchanged (it is discarded, not applied to navigation); a non-confirming
first event is applied to left/right screen navigation or ignored. -/
theorem c5_shutdown_confirmation (jmap : SenseHat.Direction → SenseHat.Direction)
    (e1 e2 : SenseHat.Direction) :
    ((SenseHat.updateScreenForShutdown jmap e1 e2).shutdownInvoked = true ↔
      (e1 = jmap .up ∧ e2 = jmap .up)) ∧
    (e1 = jmap .up →
      (SenseHat.updateScreenForShutdown jmap e1 e2).screenIndexDelta = 0) ∧
    (e1 ≠ jmap .up → e1 = jmap .left →
      (SenseHat.updateScreenForShutdown jmap e1 e2).screenIndexDelta = -1) ∧
    (e1 ≠ jmap .up → e1 ≠ jmap .left → e1 = jmap .right →
      (SenseHat.updateScreenForShutdown jmap e1 e2).screenIndexDelta = 1) ∧
    (e1 ≠ jmap .up → e1 ≠ jmap .left → e1 ≠ jmap .right →
      SenseHat.updateScreenForShutdown jmap e1 e2 = ⟨false, 0⟩) := by
  unfold SenseHat.updateScreenForShutdown
  split_ifs with h1 h2 h3 h4 <;> simp_all

/-- C5 (witness): with the rotation-0 mapping, up-up shuts down with no
navigation, and a first-event left navigates back by one. -/
theorem c5_shutdown_confirmation_witness :
    (SenseHat.updateScreenForShutdown (SenseHat.joystickDirection 0 1)
      .up .up).shutdownInvoked = true ∧
    (SenseHat.updateScreenForShutdown (SenseHat.joystickDirection 0 1)
      .up .up).screenIndexDelta = 0 ∧
    (SenseHat.updateScreenForShutdown (SenseHat.joystickDirection 0 1)
      .left .up).screenIndexDelta = -1 :=
  ⟨(c5_shutdown_confirmation _ _ _).1.mpr ⟨by decide, by decide⟩,
   (c5_shutdown_confirmation _ _ _).2.1 (by decide),
   (c5_shutdown_confirmation _ _ _).2.2.1 (by decide) (by decide)⟩

/-- Helper: `String.join` distributes over cons. -/
theorem stringJoin_cons (a : String) (l : List String) :
    String.join (a :: l) = a ++ String.join l := by
  apply String.ext
  simp [String.join_eq]

/-- Helper: the logging while-loop appends exactly one formatted row per
tick, in tick order, after the content present when it starts. -/
theorem loggingLoop_append (sep : String) (ticks : List (String → String))
    (file : String) :
    SenseHat.loggingLoop sep ticks file =
      file ++ String.join (ticks.map fun dataForLogging =>
        SenseHat.writeColumns sep dataForLogging SenseHat.orderOfColumns ++ "\n") := by
  induction ticks generalizing file with
  | nil => simp [SenseHat.loggingLoop, String.join, String.append_empty]
  | cons d rest ih =>
      show SenseHat.loggingLoop sep rest (SenseHat.logAllData sep d file) = _
      rw [ih]
      simp only [List.map_cons, stringJoin_cons, SenseHat.logAllData,
        String.append_assoc]

/-- C6: running the logging loop over N poll ticks appends exactly the N
per-tick rows (one per tick, in order) to the file content, preceded by
the 14-column header exactly when the file content was empty at open
time (a pre-existing non-empty file gets no header); each appended row
is the row's 14 column values in the fixed order, separator-delimited,
with a trailing newline; and the column list has exactly 14 entries. -/
theorem c6_logging_round_trip (sep file : String)
    (ticks : List (String → String)) :
    (SenseHat.startLoggingLoop sep ticks file =
      file ++
        (if file.length = 0 then
          String.intercalate sep SenseHat.orderOfColumns ++ "\n"
        else "") ++
        String.join (ticks.map fun dataForLogging =>
          SenseHat.writeColumns sep dataForLogging SenseHat.orderOfColumns ++ "\n")) ∧
    (ticks.map fun dataForLogging =>
      SenseHat.writeColumns sep dataForLogging SenseHat.orderOfColumns ++ "\n").length =
        ticks.length ∧
    (∀ dataForLogging : String → String,
      SenseHat.writeColumns sep dataForLogging SenseHat.orderOfColumns =
        dataForLogging "date" ++ sep ++
        dataForLogging "cpu_divisor_for_target_temp" ++ sep ++
        dataForLogging "target_temperature" ++ sep ++
        dataForLogging "cpu_usage" ++ sep ++
        dataForLogging "load_avg_1_min" ++ sep ++
        dataForLogging "load_avg_5_min" ++ sep ++
        dataForLogging "load_avg_15_min" ++ sep ++
        dataForLogging "sense_hat_temp" ++ sep ++
        dataForLogging "sense_hat_temp_from_humidity" ++ sep ++
        dataForLogging "sense_hat_temp_from_pressure" ++ sep ++
        dataForLogging "cpu_temp" ++ sep ++
        dataForLogging "accelerometer_x" ++ sep ++
        dataForLogging "accelerometer_y" ++ sep ++
        dataForLogging "accelerometer_z") ∧
    SenseHat.orderOfColumns.length = 14 := by
  refine ⟨?_, by simp, ?_, by decide⟩
  · unfold SenseHat.startLoggingLoop SenseHat.insertLogColumnHeaders
    rw [loggingLoop_append]
    by_cases h : file.length = 0
    · simp [h, String.append_assoc]
    · simp [h, String.append_empty]
  · intro dataForLogging
    simp [SenseHat.writeColumns, SenseHat.orderOfColumns, String.append_assoc]

/-- C7: when the decision table picks rotation 180 degrees, a physical
"up" event takes the logical-down branch (`value_index -= 1`), physical
"down" takes logical-up, and left/right are likewise swapped; when it
picks rotation 0 degrees, every physical direction takes its identical
logical branch. -/
theorem c7_joystick_remap (ax ay : ℤ) :
    (SenseHat.screenRotation ax ay = 180 →
      SenseHat.updateScreenIndexAction (SenseHat.joystickDirection ax ay)
        .up = some .valueDec ∧
      SenseHat.updateScreenIndexAction (SenseHat.joystickDirection ax ay)
        .down = some .valueInc ∧
      SenseHat.updateScreenIndexAction (SenseHat.joystickDirection ax ay)
        .left = some .screenNext ∧
      SenseHat.updateScreenIndexAction (SenseHat.joystickDirection ax ay)
        .right = some .screenPrev) ∧
    (SenseHat.screenRotation ax ay = 0 →
      SenseHat.updateScreenIndexAction (SenseHat.joystickDirection ax ay)
        .up = some .valueInc ∧
      SenseHat.updateScreenIndexAction (SenseHat.joystickDirection ax ay)
        .down = some .valueDec ∧
      SenseHat.updateScreenIndexAction (SenseHat.joystickDirection ax ay)
        .left = some .screenPrev ∧
      SenseHat.updateScreenIndexAction (SenseHat.joystickDirection ax ay)
        .right = some .screenNext) := by
  by_cases h1 : ax = -1
  · simp only [SenseHat.screenRotation, SenseHat.joystickDirection, if_pos h1]
    exact ⟨fun h => absurd h (by decide), fun h => absurd h (by decide)⟩
  · by_cases h2 : ay = 1
    · simp only [SenseHat.screenRotation, SenseHat.joystickDirection,
        if_neg h1, if_pos h2]
      exact ⟨fun h => absurd h (by decide), fun _ => by decide⟩
    · by_cases h3 : ay = -1
      · simp only [SenseHat.screenRotation, SenseHat.joystickDirection,
          if_neg h1, if_neg h2, if_pos h3]
        exact ⟨fun _ => by decide, fun h => absurd h (by decide)⟩
      · simp only [SenseHat.screenRotation, SenseHat.joystickDirection,
          if_neg h1, if_neg h2, if_neg h3]
        exact ⟨fun h => absurd h (by decide), fun h => absurd h (by decide)⟩

/-- C7 (witness): at rounded acceleration (x, y) = (0, -1) the rotation
is 180 degrees and the swapped interpretation holds; at (0, 1) the
rotation is 0 degrees and the identity interpretation holds. -/
theorem c7_joystick_remap_witness :
    (SenseHat.updateScreenIndexAction (SenseHat.joystickDirection 0 (-1))
        .up = some .valueDec ∧
      SenseHat.updateScreenIndexAction (SenseHat.joystickDirection 0 (-1))
        .down = some .valueInc ∧
      SenseHat.updateScreenIndexAction (SenseHat.joystickDirection 0 (-1))
        .left = some .screenNext ∧
      SenseHat.updateScreenIndexAction (SenseHat.joystickDirection 0 (-1))
        .right = some .screenPrev) ∧
    (SenseHat.updateScreenIndexAction (SenseHat.joystickDirection 0 1)
        .up = some .valueInc ∧
      SenseHat.updateScreenIndexAction (SenseHat.joystickDirection 0 1)
        .down = some .valueDec ∧
      SenseHat.updateScreenIndexAction (SenseHat.joystickDirection 0 1)
        .left = some .screenPrev ∧
      SenseHat.updateScreenIndexAction (SenseHat.joystickDirection 0 1)
        .right = some .screenNext) :=
  ⟨(c7_joystick_remap 0 (-1)).1 (by decide),
   (c7_joystick_remap 0 1).2 (by decide)⟩

/-- C8: with the 8 configured screens, screen index -1 renders the same
screen as screen index 7 (the last screen, "Logging Start/Off"), and in
general every integer screen index selects the same renderer as that
index plus 8. -/
theorem c8_screen_index_wraparound :
    SenseHat.renderedScreen (-1) = SenseHat.renderedScreen 7 ∧
    SenseHat.renderedScreen (-1) = "Logging Start/Off" ∧
    (∀ i : ℤ, SenseHat.renderedScreen i = SenseHat.renderedScreen (i + 8)) ∧
    SenseHat.screenOrder.length = 8 := by
  refine ⟨rfl, rfl, ?_, rfl⟩
  intro i
  unfold SenseHat.renderedScreen
  have hlen : (SenseHat.screenOrder.length : ℤ) = 8 := by
    norm_num [SenseHat.screenOrder]
  rw [hlen]
  congr 1
  omega

/-- C9: with no command-line argument supplied (`argv` holding only the
script name), the `log_filename` configuration block of `main.py` raises
`IndexError` at `sys.argv[1]` instead of selecting the default path;
with an argument supplied it selects that argument. -/
theorem c9_missing_argument_crashes :
    SenseHat.logFilename ["main.py"] = .error .indexError ∧
    SenseHat.logFilename ["main.py", "/var/log/sensors"] =
      .ok "/var/log/sensors" := by
  exact ⟨rfl, rfl⟩

/-- C10: for every rounded acceleration reading, the joystick direction
mapping computed by `update_joystick_rotation` is a bijection on the
four directions, so every physical direction is the image of exactly one
logical direction and each directional event matches at most one branch
of `update_screen_index`. -/
theorem c10_joystick_direction_bijective (ax ay : ℤ) :
    Function.Bijective (SenseHat.joystickDirection ax ay) ∧
    ∀ p : SenseHat.Direction,
      ∃! l : SenseHat.Direction, SenseHat.joystickDirection ax ay l = p := by
  have hbij : Function.Bijective (SenseHat.joystickDirection ax ay) := by
    unfold SenseHat.joystickDirection
    split_ifs <;> decide
  exact ⟨hbij, fun p => hbij.existsUnique p⟩
